import Mathlib

/-!
Formal model of the moltworker WebSocket relay and debug routes.

The definitions below are a shallow embedding of `src/routes/websocket.ts`
and `src/routes/debug.ts`.  JavaScript strings are modelled as Lean
`String` (sequences of Unicode code points; the sources only distinguish
code-unit counts from code-point counts for astral-plane characters, which
none of the properties below involve).  The platform primitives
`JSON.parse`, the sandbox process supervisor, and `sandbox.wsConnect` are
modelled as explicit parameters, so every handler becomes a pure function
of its inputs and of the outcomes those primitives produced.
-/

/-- JavaScript `message.includes(sub)`: `sub` occurs as a contiguous
substring of `message`. -/
def jsIncludes (s sub : String) : Bool := decide (sub.data <:+: s.data)

/-- Function `transformErrorMessage` from `src/routes/websocket.ts` (lines 10-20):
rewrites known gateway failure phrases into user-facing guidance, keyed on
case-sensitive substring matches, and returns every other message
unchanged. -/
def transformErrorMessage (message host : String) : String :=
  if jsIncludes message "gateway token missing" || jsIncludes message "gateway token mismatch" then
    "Invalid or missing token. Visit https://" ++ host ++ "?token=\x7bREPLACE_WITH_YOUR_TOKEN\x7d"
  else if jsIncludes message "pairing required" then
    "Pairing required. Visit https://" ++ host ++ "/_admin/"
  else
    message

/-- The spec's Error-Mapping table: an ordered list of
(matched-phrase predicate, output template) pairs. -/
def translationTable : List ((String → Bool) × (String → String)) :=
  [ (fun m => jsIncludes m "gateway token missing" || jsIncludes m "gateway token mismatch",
     fun host => "Invalid or missing token. Visit https://" ++ host ++ "?token=\x7bREPLACE_WITH_YOUR_TOKEN\x7d"),
    (fun m => jsIncludes m "pairing required",
     fun host => "Pairing required. Visit https://" ++ host ++ "/_admin/") ]

/-- First-match table lookup: the first entry whose predicate accepts the
message produces the output; when no entry matches, the message is
returned unchanged. -/
def applyTable (table : List ((String → Bool) × (String → String)))
    (message host : String) : String :=
  match table with
  | [] => message
  | e :: rest => if e.1 message then e.2 host else applyTable rest message host

/-- The spec's `translate(rawMessage, requestHost)`: table-driven substring
match against the fixed, ordered table; first match wins. -/
def translateSpec (message host : String) : String :=
  applyTable translationTable message host

/-- JSON values as produced by `JSON.parse` (numbers restricted to
integers; no property below depends on fractional numeric values). -/
inductive Json where
  | null : Json
  | bool (b : Bool) : Json
  | num (n : Int) : Json
  | str (s : String) : Json
  | arr (elems : List Json) : Json
  | obj (fields : List (String × Json)) : Json

/-- JavaScript truthiness of a parsed JSON value: `null`, `false`, `0`
and `""` are falsy; every array and object is truthy. -/
def jsTruthy : Json → Bool
  | .null => false
  | .bool b => b
  | .num n => n != 0
  | .str s => s != ""
  | .arr _ => true
  | .obj _ => true

/-- Lowercase hexadecimal digit. -/
def hexDigitChar (n : Nat) : Char :=
  if n < 10 then Char.ofNat (48 + n) else Char.ofNat (87 + n)

/-- The `JSON.stringify` escaping of a single character inside a string
literal. -/
def escapeJsonChar (c : Char) : String :=
  if c = '"' then "\\\""
  else if c = '\\' then "\\\\"
  else if c = '\x08' then "\\b"
  else if c = '\x09' then "\\t"
  else if c = '\x0a' then "\\n"
  else if c = '\x0c' then "\\f"
  else if c = '\x0d' then "\\r"
  else if c.toNat < 32 then
    "\\u00" ++ String.mk [hexDigitChar (c.toNat / 16), hexDigitChar (c.toNat % 16)]
  else
    String.singleton c

/-- The `JSON.stringify` rendering of a string literal, quotes included. -/
def escapeJsonString (s : String) : String :=
  "\"" ++ String.join (s.data.map escapeJsonChar) ++ "\""

mutual

/-- The `JSON.stringify` rendering of a value (no indent argument): minimal separators, object
fields in insertion order. -/
def serializeJson : Json → String
  | .null => "null"
  | .bool true => "true"
  | .bool false => "false"
  | .num n => toString n
  | .str s => escapeJsonString s
  | .arr xs => "[" ++ serializeList xs ++ "]"
  | .obj fs => "\x7b" ++ serializeFields fs ++ "\x7d"

/-- Comma-separated serialization of array elements. -/
def serializeList : List Json → String
  | [] => ""
  | [x] => serializeJson x
  | x :: y :: xs => serializeJson x ++ "," ++ serializeList (y :: xs)

/-- Comma-separated serialization of object fields. -/
def serializeFields : List (String × Json) → String
  | [] => ""
  | [(k, v)] => escapeJsonString k ++ ":" ++ serializeJson v
  | (k, v) :: f :: fs =>
      escapeJsonString k ++ ":" ++ serializeJson v ++ "," ++ serializeFields (f :: fs)

end

/-- The value of `parsed.error?.message` when it exists: `parsed` must be
an object whose `error` field is itself an object with a `message` field.
(When `parsed` is `null` the source expression throws inside the handler's
try/catch, and for every other non-object `parsed` it evaluates to
`undefined`; both outcomes leave the frame untouched, exactly like the
`none` result here.) -/
def errorMessageOf (j : Json) : Option Json :=
  match j with
  | .obj fields =>
      match fields.lookup "error" with
      | some (.obj efields) => efields.lookup "message"
      | _ => none
  | _ => none

/-- JavaScript `Array.prototype.includes` restricted to a string search
value: only an element that is exactly that string matches. -/
def arrayIncludesStr (xs : List Json) (s : String) : Bool :=
  xs.any (fun v => match v with | .str t => t = s | _ => false)

/-- Outcome of calling `transformErrorMessage` on the raw value found at
`error.message`.  On a string it is the translation above.  On an array,
`message.includes(...)` is `Array.prototype.includes`, so the templates
fire only when an element equals a known phrase.  On every other value
`.includes` is not a function; the resulting TypeError is caught by the
message handler's try/catch, modelled as `none`. -/
def transformErrorValue (v : Json) (host : String) : Option Json :=
  match v with
  | .str s => some (.str (transformErrorMessage s host))
  | .arr xs =>
      if arrayIncludesStr xs "gateway token missing" || arrayIncludesStr xs "gateway token mismatch" then
        some (.str ("Invalid or missing token. Visit https://" ++ host ++ "?token=\x7bREPLACE_WITH_YOUR_TOKEN\x7d"))
      else if arrayIncludesStr xs "pairing required" then
        some (.str ("Pairing required. Visit https://" ++ host ++ "/_admin/"))
      else
        some v
  | _ => none

/-- Replace the value stored under key `k` (JavaScript assignment to an
existing property keeps its position in the field order). -/
def modifyKey (fs : List (String × Json)) (k : String) (f : Json → Json) :
    List (String × Json) :=
  fs.map (fun p => if p.1 = k then (p.1, f p.2) else p)

/-- Effect of `parsed.error.message = v` on the parsed value. -/
def setErrorMessage (j : Json) (v : Json) : Json :=
  match j with
  | .obj fs =>
      .obj (modifyKey fs "error" (fun e =>
        match e with
        | .obj efs => .obj (modifyKey efs "message" (fun _ => v))
        | other => other))
  | other => other

/-- Field lookup on a top-level JSON object. -/
def topField (j : Json) (k : String) : Option Json :=
  match j with
  | .obj fs => fs.lookup k
  | _ => none

/-- Field lookup inside the `error` object of a JSON object. -/
def errorField (j : Json) (k : String) : Option Json :=
  match topField j "error" with
  | some (.obj efs) => efs.lookup k
  | _ => none

/-- The `containerWs` message listener's treatment of a text frame
(`src/routes/websocket.ts` lines 100-118), with `JSON.parse` supplied as
the `parse` parameter: on a parse failure the original text is forwarded;
when the parsed value carries a truthy `error.message`, that field is
rewritten through `transformErrorMessage` and the value re-serialized;
a TypeError thrown by the rewrite is swallowed by the try/catch, leaving
the original text. -/
def containerToClient (parse : String → Option Json) (data host : String) : String :=
  match parse data with
  | none => data
  | some j =>
      match errorMessageOf j with
      | some m =>
          if jsTruthy m then
            match transformErrorValue m host with
            | some m2 => serializeJson (setErrorMessage j m2)
            | none => data
          else data
      | none => data

/-- The `containerWs` close listener's reason handling
(`src/routes/websocket.ts` lines 133-141): translate, then, when the
resulting string length exceeds 123, keep the first 120 characters and
append an ellipsis. -/
def closeReasonForward (reason host : String) : String :=
  let r := transformErrorMessage reason host
  if r.length > 123 then r.take 120 ++ "..." else r

/-- A WebSocket data frame. -/
inductive WsFrame where
  | text (s : String) : WsFrame
  | binary (payload : List Nat) : WsFrame

/-- Open/closed state of the two endpoints of a relay session
(`serverWs` faces the client, `containerWs` faces the backend). -/
structure RelayState where
  clientOpen : Bool
  containerOpen : Bool

/-- Events a relay session's listeners react to. -/
inductive RelayEvent where
  | clientMessage (frame : WsFrame) : RelayEvent
  | containerMessage (frame : WsFrame) : RelayEvent
  | clientClose (code : Nat) (reason : String) : RelayEvent
  | containerClose (code : Nat) (reason : String) : RelayEvent
  | clientError : RelayEvent
  | containerError : RelayEvent

/-- Actions the listeners issue on the two endpoints. -/
inductive RelayAction where
  | sendToContainer (frame : WsFrame) : RelayAction
  | sendToClient (frame : WsFrame) : RelayAction
  | closeContainer (code : Nat) (reason : String) : RelayAction
  | closeClient (code : Nat) (reason : String) : RelayAction

/-- The five event listeners of one relay session
(`src/routes/websocket.ts` lines 90-153) as a single step function:
a frame is forwarded only when the destination endpoint is open (dropped
otherwise), backend text frames pass through `containerToClient`, close
events propagate code and (for the backend side) the transformed,
truncated reason, and transport errors close the peer with code 1011 and
a direction-specific fixed reason. -/
def relayStep (parse : String → Option Json) (host : String)
    (st : RelayState) (ev : RelayEvent) : List RelayAction :=
  match ev with
  | .clientMessage f =>
      if st.containerOpen then [.sendToContainer f] else []
  | .containerMessage f =>
      let out := match f with
        | .text s => WsFrame.text (containerToClient parse s host)
        | .binary b => WsFrame.binary b
      if st.clientOpen then [.sendToClient out] else []
  | .clientClose code reason => [.closeContainer code reason]
  | .containerClose code reason => [.closeClient code (closeReasonForward reason host)]
  | .clientError => [.closeContainer 1011 "Client error"]
  | .containerError => [.closeClient 1011 "Container error"]

/-- A thrown JavaScript value: either an `Error` (carrying a message) or
any other value. -/
inductive JsError where
  | err (message : String) : JsError
  | nonError : JsError

/-- The source's `error instanceof Error ? error.message : 'Unknown error'`. -/
def jsErrorMessage : JsError → String
  | .err m => m
  | .nonError => "Unknown error"

/-- A sandbox process as observed by the route handlers; only the fields
they read are modelled. -/
structure SandboxProcess where
  id : String
  status : String

/-- The response of `sandbox.wsConnect`: an HTTP response that may or may
not carry a backend-side WebSocket. -/
structure ConnectResponse where
  status : Nat
  headers : List (String × String)
  body : String
  webSocket : Option Unit

/-- External calls the `/ws` handler performs, in order. -/
inductive Effect where
  | findProcess : Effect
  | ensureGateway : Effect
  | wsConnect : Effect
  | createSession : Effect
deriving DecidableEq

/-- The value the `/ws` handler returns. -/
inductive HandlerResult where
  | json (status : Nat) (body : Json) : HandlerResult
  | passthrough (resp : ConnectResponse) : HandlerResult
  | upgraded : HandlerResult

/-- JavaScript `String.prototype.toLowerCase`, mapping each code point
to its lower-case form (ASCII coverage suffices for the header values
compared here). -/
def jsToLower (s : String) : String := String.mk (s.data.map Char.toLower)

/-- The readiness test `existingProcess !== null && existingProcess.status === 'running'`
(`src/routes/websocket.ts` line 48). -/
def isGatewayReady (existing : Option SandboxProcess) : Bool :=
  match existing with
  | some p => p.status == "running"
  | none => false

/-- Steps of the `/ws` handler from `sandbox.wsConnect` on
(`src/routes/websocket.ts` lines 66-159): when the response carries no
WebSocket the response itself is returned, otherwise a relay session is
created and a 101 response returned. -/
def connectAndRelay (resp : ConnectResponse) (effs : List Effect) :
    HandlerResult × List Effect :=
  let effs2 := effs ++ [Effect.wsConnect]
  match resp.webSocket with
  | none => (.passthrough resp, effs2)
  | some _ => (.upgraded, effs2 ++ [Effect.createSession])

/-- The `/ws` route handler (`src/routes/websocket.ts` lines 31-160).
The sandbox primitives are supplied as parameters: `existing` is what
`findExistingMoltbotProcess` returned, `ensureOutcome` the outcome of
`ensureMoltbotGateway` (consulted only when the gateway is not ready),
and `resp` the `sandbox.wsConnect` response.  The second component of the
result is the ordered trace of external calls actually performed. -/
def handleWs (upgrade : Option String) (existing : Option SandboxProcess)
    (ensureOutcome : Except JsError Unit) (resp : ConnectResponse) :
    HandlerResult × List Effect :=
  if upgrade.map jsToLower = some "websocket" then
    if isGatewayReady existing then
      connectAndRelay resp [Effect.findProcess]
    else
      match ensureOutcome with
      | .error e =>
          (.json 503 (Json.obj
            [("error", Json.str "Moltbot gateway failed to start"),
             ("details", Json.str (jsErrorMessage e))]),
           [Effect.findProcess, Effect.ensureGateway])
      | .ok _ => connectAndRelay resp [Effect.findProcess, Effect.ensureGateway]
  else
    (.json 426 (Json.obj [("error", Json.str "WebSocket upgrade required")]), [])

/-- One entry of the `/debug/processes` response body, restricted to the
fields the sort comparator reads plus identifying data. -/
structure ProcessEntry where
  id : String
  command : String
  status : String
  startTime : Option String
  endTime : Option String
  exitCode : Option Int

/-- The `statusOrder` record of `src/routes/debug.ts` (lines 70-75) with
the `?? 99` default for unknown statuses. -/
def statusOrder (status : String) : Nat :=
  if status = "running" then 0
  else if status = "starting" then 1
  else if status = "completed" then 2
  else if status = "failed" then 3
  else 99

/-- The key `a.startTime as string || ''`: a missing start time is treated as the
empty string. -/
def timeKey (p : ProcessEntry) : String := p.startTime.getD ""

/-- The sort comparator of `src/routes/debug.ts` (lines 77-87): status
rank difference first; within equal rank, `timeB.localeCompare(timeA)`
(descending start time; on ISO-8601 timestamps the locale comparison
coincides with lexicographic order). -/
def processCompare (a b : ProcessEntry) : Int :=
  if statusOrder a.status ≠ statusOrder b.status then
    (statusOrder a.status : Int) - (statusOrder b.status : Int)
  else if timeKey b < timeKey a then -1
  else if timeKey a < timeKey b then 1
  else 0

/-- Whether `a` may precede `b` under the comparator. -/
def processLE (a b : ProcessEntry) : Bool := decide (processCompare a b ≤ 0)

/-- The call `processData.sort(comparator)`: JavaScript's stable sort under a
consistent comparator, modelled by the stable `List.mergeSort`. -/
def sortProcesses (l : List ProcessEntry) : List ProcessEntry :=
  l.mergeSort processLE

/-- Program counter of one caller inside `ensureRunning`.

Modelled from the spec: the Gateway Lifecycle Manager
(`ensureMoltbotGateway` in `src/gateway.ts`) is not part of the sources
here, so its control flow follows spec sections 4.2 and 9: check for a
running process, acquire the exclusive section keyed by the gateway
signature, either issue the single start or wait on the shared in-flight
result. -/
inductive EnsurePC where
  | check : EnsurePC
  | acquire : EnsurePC
  | inStart : EnsurePC
  | waiting : EnsurePC
  | done : EnsurePC
deriving DecidableEq

/-- Modelled from the spec: shared state of the Gateway Lifecycle Manager
with two concurrent callers. `running` is whether a gateway process with
the command signature is running, `pending` whether a start is in flight
(the single shared pending result), `startCount` how many start requests
have been issued to the Process Supervisor. -/
structure EnsureState where
  running : Bool
  pending : Bool
  startCount : Nat
  pc0 : EnsurePC
  pc1 : EnsurePC
deriving DecidableEq

/-- Program counter of caller `i`. -/
def pcOf (s : EnsureState) (i : Bool) : EnsurePC :=
  if i then s.pc1 else s.pc0

/-- Update the program counter of caller `i`. -/
def setPc (s : EnsureState) (i : Bool) (p : EnsurePC) : EnsureState :=
  if i then { s with pc1 := p } else { s with pc0 := p }

/-- Modelled from the spec: one atomic step of caller `i` inside
`ensureRunning`.  `check` is the fast-path query of the Process
Supervisor; `acquire` is entry into the exclusive section, where a caller
either joins the in-flight start as a waiter, returns because a process
is now running, or issues the one start; `inStart` is the start request
resolving (the process reaches running and the shared pending result is
settled); `waiting` polls the shared result. -/
def ensureStep (s : EnsureState) (i : Bool) : EnsureState :=
  match pcOf s i with
  | .check => if s.running then setPc s i .done else setPc s i .acquire
  | .acquire =>
      if s.pending then setPc s i .waiting
      else if s.running then setPc s i .done
      else { setPc s i .inStart with pending := true, startCount := s.startCount + 1 }
  | .inStart => { setPc s i .done with running := true, pending := false }
  | .waiting => if s.pending then s else setPc s i .done
  | .done => s

/-- Run a schedule (the sequence of which caller steps next). -/
def ensureRun (s : EnsureState) (sched : List Bool) : EnsureState :=
  sched.foldl ensureStep s

/-- Initial state for two concurrent `ensureRunning` callers when no
gateway process exists. -/
def ensureInit : EnsureState :=
  { running := false, pending := false, startCount := 0, pc0 := .check, pc1 := .check }

/-- Inductive invariant of the lifecycle-manager model: the start counter
tracks whether a start was issued, at most one caller is inside the start,
and a finished or waiting caller implies the start happened. -/
def EnsureInv (s : EnsureState) : Prop :=
  (s.startCount = if s.pending || s.running then 1 else 0)
  ∧ ¬(s.pending = true ∧ s.running = true)
  ∧ (s.pending = true ↔ (s.pc0 = .inStart ∨ s.pc1 = .inStart))
  ∧ ¬(s.pc0 = .inStart ∧ s.pc1 = .inStart)
  ∧ (s.pc0 = .done → s.pending = true ∨ s.running = true)
  ∧ (s.pc1 = .done → s.pending = true ∨ s.running = true)
  ∧ (s.pc0 = .waiting → s.pending = true ∨ s.running = true)
  ∧ (s.pc1 = .waiting → s.pending = true ∨ s.running = true)

/-- Decidability of the lifecycle-manager invariant (all components are
equalities over finite data plus one pinned counter). -/
instance (s : EnsureState) : Decidable (EnsureInv s) := by
  unfold EnsureInv
  infer_instance

/-- C2: for every message and host, `transformErrorMessage` agrees with
the spec's total, table-driven `translate`: the token template on a
"gateway token missing"/"gateway token mismatch" substring, otherwise the
pairing template on a "pairing required" substring, otherwise the message
unchanged — first match in that fixed order wins, and the function never
fails. -/
theorem transformErrorMessage_matches_spec_table (m h : String) :
    transformErrorMessage m h = translateSpec m h := by
  unfold transformErrorMessage translateSpec translationTable applyTable
  by_cases h1 : jsIncludes m "gateway token missing" || jsIncludes m "gateway token mismatch"
  · simp [applyTable, h1]
  · by_cases h2 : jsIncludes m "pairing required" <;> simp [applyTable, h1, h2]

/-- C6: a transport error on either endpoint closes the other endpoint
with the fixed code 1011 and a fixed generic reason, distinct for the two
directions, regardless of session state or error content. -/
theorem relay_error_close_fixed (parse : String → Option Json) (host : String)
    (st : RelayState) :
    relayStep parse host st .clientError = [.closeContainer 1011 "Client error"]
    ∧ relayStep parse host st .containerError = [.closeClient 1011 "Container error"]
    ∧ ("Client error" : String) ≠ "Container error" :=
  ⟨rfl, rfl, by decide⟩

/-- C4: a backend text frame that fails to parse as JSON, or parses to a
value without a truthy `error.message`, is forwarded to the client
byte-for-byte unchanged; the parse failure is never surfaced as an
error. -/
theorem relay_forwards_unparsed_frames_unchanged
    (parse : String → Option Json) (host : String) (st : RelayState) (data : String)
    (hopen : st.clientOpen = true)
    (h : ∀ j, parse data = some j → ∀ m, errorMessageOf j = some m → jsTruthy m = false) :
    relayStep parse host st (.containerMessage (.text data)) = [.sendToClient (.text data)] := by
  have hcc : containerToClient parse data host = data := by
    unfold containerToClient
    cases hp : parse data with
    | none => rfl
    | some j =>
      cases hm : errorMessageOf j with
      | none => simp [hm]
      | some m => simp [hm, h j hp m hm]
  simp [relayStep, hcc, hopen]

/-- Closed instance of the fail-open forwarding property at a non-JSON
frame. -/
theorem relay_forwards_unparsed_frames_unchanged_witness :
    relayStep (fun _ => none) "h" ⟨true, true⟩ (.containerMessage (.text "hello"))
      = [.sendToClient (.text "hello")] :=
  relay_forwards_unparsed_frames_unchanged (fun _ => none) "h" ⟨true, true⟩ "hello" rfl
    (fun _ hj => nomatch hj)

set_option maxRecDepth 4000 in
/-- C3: the close-reason truncation evaluated at a 100-character,
200-UTF-8-byte reason (100 copies of U+00A9): the length test `100 > 123`
fails, so the reason is forwarded whole and its UTF-8 byte size, 200,
exceeds the 123-byte bound that both the claim and the source's own
comment ("truncate to 123 bytes max for WebSocket spec") require. -/
theorem closeReason_byte_length_violation :
    closeReasonForward (String.mk (List.replicate 100 '©')) "h"
      = String.mk (List.replicate 100 '©')
    ∧ (String.mk (List.replicate 100 '©')).length = 100
    ∧ 123 < (closeReasonForward (String.mk (List.replicate 100 '©')) "h").utf8ByteSize := by
  refine ⟨by decide, by decide, by decide⟩

/-- Every atomic step of either caller preserves the lifecycle-manager
invariant. -/
theorem ensureStep_preserves_inv (s : EnsureState) (i : Bool) (h : EnsureInv s) :
    EnsureInv (ensureStep s i) := by
  obtain ⟨running, pending, cnt, pc0, pc1⟩ := s
  obtain ⟨h1, h2, h3, h4, h5, h6, h7, h8⟩ := h
  cases i <;> cases running <;> cases pending <;> cases pc0 <;> cases pc1 <;>
    simp_all [ensureStep, pcOf, setPc, EnsureInv]

/-- The invariant holds after any schedule of caller steps, starting from
an invariant state. -/
theorem ensureRun_inv (sched : List Bool) (s : EnsureState) (h : EnsureInv s) :
    EnsureInv (ensureRun s sched) := by
  induction sched generalizing s with
  | nil => exact h
  | cons i rest ih => exact ih (ensureStep s i) (ensureStep_preserves_inv s i h)

/-- C1: starting from no gateway process, under every interleaving of two
concurrent `ensureRunning` callers at most one start request is issued to
the Process Supervisor, and when both callers have finished exactly one
start was issued; the loser waited on the winner's in-flight result
instead of starting a second process. -/
theorem ensureRunning_single_start (sched : List Bool) :
    (ensureRun ensureInit sched).startCount ≤ 1
    ∧ ((ensureRun ensureInit sched).pc0 = .done → (ensureRun ensureInit sched).pc1 = .done →
        (ensureRun ensureInit sched).startCount = 1) := by
  obtain ⟨h1, h2, h3, h4, h5, h6, h7, h8⟩ := ensureRun_inv sched ensureInit (by decide)
  constructor
  · rw [h1]
    split <;> omega
  · intro hd0 _
    rw [h1]
    rcases h5 hd0 with hp | hr
    · rw [hp]
      simp
    · rw [hr]
      simp

/-- Closed instance: a schedule on which caller 0 performs the whole
start and caller 1 then finds the process running; exactly one start was
issued. -/
theorem ensureRunning_single_start_witness :
    (ensureRun ensureInit [false, false, false, true]).startCount = 1 :=
  (ensureRunning_single_start [false, false, false, true]).2 (by decide) (by decide)

/-- The comparator accepts `a` before `b` exactly when `a`'s status ranks
strictly earlier, or the statuses rank equally and `b`'s start-time key is
lexicographically at most `a`'s (descending time). -/
theorem processLE_iff (a b : ProcessEntry) :
    processLE a b = true ↔
      (statusOrder a.status < statusOrder b.status
        ∨ (statusOrder a.status = statusOrder b.status ∧ timeKey b ≤ timeKey a)) := by
  unfold processLE processCompare
  simp only [decide_eq_true_eq]
  by_cases hne : statusOrder a.status = statusOrder b.status
  · rw [if_neg (by simp [hne])]
    constructor
    · intro hle
      refine Or.inr ⟨hne, ?_⟩
      by_contra hnot
      have hlt : timeKey a < timeKey b := not_le.mp hnot
      rw [if_neg (lt_asymm hlt), if_pos hlt] at hle
      norm_num at hle
    · intro hor
      rcases hor with hlt | ⟨_, hle⟩
      · rw [hne] at hlt
        exact absurd hlt (lt_irrefl _)
      · rcases lt_or_eq_of_le hle with hlt | heq2
        · rw [if_pos hlt]
          norm_num
        · have hx : ¬ timeKey b < timeKey a := by rw [heq2]; exact lt_irrefl _
          have hy : ¬ timeKey a < timeKey b := by rw [heq2]; exact lt_irrefl _
          rw [if_neg hx, if_neg hy]
  · rw [if_pos hne]
    have hiff : ((statusOrder a.status : Int) - (statusOrder b.status : Int) ≤ 0)
        ↔ statusOrder a.status < statusOrder b.status := by omega
    rw [hiff]
    simp [hne]

/-- The comparator order is total. -/
theorem processLE_total (a b : ProcessEntry) : (processLE a b || processLE b a) = true := by
  simp only [Bool.or_eq_true, processLE_iff]
  rcases Nat.lt_trichotomy (statusOrder a.status) (statusOrder b.status) with h | h | h
  · exact Or.inl (Or.inl h)
  · rcases le_total (timeKey b) (timeKey a) with ht | ht
    · exact Or.inl (Or.inr ⟨h, ht⟩)
    · exact Or.inr (Or.inr ⟨h.symm, ht⟩)
  · exact Or.inr (Or.inl h)

/-- The comparator order is transitive. -/
theorem processLE_trans (a b c : ProcessEntry)
    (hab : processLE a b = true) (hbc : processLE b c = true) : processLE a c = true := by
  rw [processLE_iff] at hab hbc ⊢
  rcases hab with h1 | ⟨h1, t1⟩ <;> rcases hbc with h2 | ⟨h2, t2⟩
  · exact Or.inl (by omega)
  · exact Or.inl (by omega)
  · exact Or.inl (by omega)
  · exact Or.inr ⟨h1.trans h2, le_trans t2 t1⟩

/-- C10: `/debug/processes` sorts deterministically: the output is a
permutation of the input that is pairwise ordered by status rank
(running, starting, completed, failed, unknown last) and, within equal
rank, by start time descending (lexicographically, a missing start time
acting as the empty string). -/
theorem debug_processes_sort_order (l : List ProcessEntry) :
    (sortProcesses l).Perm l
    ∧ (sortProcesses l).Pairwise (fun a b =>
        statusOrder a.status < statusOrder b.status
        ∨ (statusOrder a.status = statusOrder b.status ∧ timeKey b ≤ timeKey a)) := by
  constructor
  · exact List.mergeSort_perm l processLE
  · have hs := List.sorted_mergeSort
      (fun a b c hab hbc => processLE_trans a b c hab hbc)
      (fun a b => processLE_total a b) l
    exact List.Pairwise.imp (fun h => (processLE_iff _ _).mp h) hs

/-- When the `wsConnect` response carries no WebSocket, the handler
returns that response itself. -/
theorem connectAndRelay_no_socket (resp : ConnectResponse) (effs : List Effect)
    (h : resp.webSocket = none) :
    connectAndRelay resp effs = (.passthrough resp, effs ++ [Effect.wsConnect]) := by
  simp [connectAndRelay, h]

/-- C7: a request without an `Upgrade: websocket` header is answered with
HTTP 426 and body `\x7b "error": "WebSocket upgrade required" \x7d`, and the
handler performs no external call at all: no process lookup, no gateway
start, no backend connection, no session. -/
theorem missing_upgrade_rejected_426 (upgrade : Option String)
    (existing : Option SandboxProcess) (ensureOutcome : Except JsError Unit)
    (resp : ConnectResponse)
    (h : upgrade.map jsToLower ≠ some "websocket") :
    handleWs upgrade existing ensureOutcome resp
      = (.json 426 (Json.obj [("error", Json.str "WebSocket upgrade required")]), []) := by
  unfold handleWs
  rw [if_neg h]

/-- Closed instance: an absent `Upgrade` header is rejected with 426 and
an empty effect trace. -/
theorem missing_upgrade_rejected_426_witness :
    handleWs none none (.ok ()) ⟨200, [], "", none⟩
      = (.json 426 (Json.obj [("error", Json.str "WebSocket upgrade required")]), []) :=
  missing_upgrade_rejected_426 none none (.ok ()) ⟨200, [], "", none⟩ (by decide)

/-- C8: when the gateway is not ready and `ensureMoltbotGateway` fails,
the handler answers 503 with the fixed error string and the failure's
message as `details`, and never creates a relay session (nor contacts the
backend). -/
theorem gateway_start_failure_503 (upgrade : Option String)
    (existing : Option SandboxProcess) (e : JsError) (resp : ConnectResponse)
    (hu : upgrade.map jsToLower = some "websocket")
    (hr : isGatewayReady existing = false) :
    handleWs upgrade existing (.error e) resp
      = (.json 503 (Json.obj
          [("error", Json.str "Moltbot gateway failed to start"),
           ("details", Json.str (jsErrorMessage e))]),
         [Effect.findProcess, Effect.ensureGateway])
    ∧ Effect.createSession ∉ (handleWs upgrade existing (.error e) resp).2
    ∧ Effect.wsConnect ∉ (handleWs upgrade existing (.error e) resp).2 := by
  have h1 : handleWs upgrade existing (.error e) resp
      = (.json 503 (Json.obj
          [("error", Json.str "Moltbot gateway failed to start"),
           ("details", Json.str (jsErrorMessage e))]),
         [Effect.findProcess, Effect.ensureGateway]) := by
    unfold handleWs
    rw [if_pos hu, if_neg (by simp [hr])]
  refine ⟨h1, ?_, ?_⟩ <;> rw [h1] <;> simp

/-- Closed instance: gateway not running, start fails with message
"boom"; the handler answers 503 carrying "boom" as details. -/
theorem gateway_start_failure_503_witness :
    handleWs (some "websocket") none (.error (.err "boom")) ⟨200, [], "", none⟩
      = (.json 503 (Json.obj
          [("error", Json.str "Moltbot gateway failed to start"),
           ("details", Json.str "boom")]),
         [Effect.findProcess, Effect.ensureGateway]) :=
  (gateway_start_failure_503 (some "websocket") none (.err "boom") ⟨200, [], "", none⟩
    (by decide) rfl).1

/-- C9: when the reached backend connection yields a response without a
WebSocket, the handler returns exactly that response object — status,
headers and body unmodified. -/
theorem backend_no_socket_passthrough (upgrade : Option String)
    (existing : Option SandboxProcess) (ensureOutcome : Except JsError Unit)
    (resp : ConnectResponse)
    (hu : upgrade.map jsToLower = some "websocket")
    (hready : isGatewayReady existing = true ∨ ensureOutcome = .ok ())
    (hws : resp.webSocket = none) :
    (handleWs upgrade existing ensureOutcome resp).1 = .passthrough resp := by
  unfold handleWs
  rw [if_pos hu]
  rcases hready with hr | he
  · rw [if_pos hr, connectAndRelay_no_socket resp _ hws]
  · subst he
    by_cases hg : isGatewayReady existing = true
    · rw [if_pos hg, connectAndRelay_no_socket resp _ hws]
    · rw [if_neg hg]
      rw [show (match (Except.ok () : Except JsError Unit) with
            | .error e =>
                ((HandlerResult.json 503 (Json.obj
                  [("error", Json.str "Moltbot gateway failed to start"),
                   ("details", Json.str (jsErrorMessage e))]),
                 [Effect.findProcess, Effect.ensureGateway]) : HandlerResult × List Effect)
            | .ok _ => connectAndRelay resp [Effect.findProcess, Effect.ensureGateway])
          = connectAndRelay resp [Effect.findProcess, Effect.ensureGateway] from rfl]
      rw [connectAndRelay_no_socket resp _ hws]

/-- Closed instance: the spec's example — backend answers 500 with body
"boom" and no socket; the client receives that very response. -/
theorem backend_no_socket_passthrough_witness :
    (handleWs (some "websocket") (some ⟨"gw", "running"⟩) (.ok ()) ⟨500, [], "boom", none⟩).1
      = .passthrough ⟨500, [], "boom", none⟩ :=
  backend_no_socket_passthrough (some "websocket") (some ⟨"gw", "running"⟩) (.ok ())
    ⟨500, [], "boom", none⟩ (by decide) (Or.inl (by decide)) rfl

/-- Lemma: `modifyKey` leaves lookups of every other key unchanged. -/
theorem lookup_modifyKey_ne (fs : List (String × Json)) (k k' : String)
    (f : Json → Json) (h : k' ≠ k) :
    (modifyKey fs k f).lookup k' = fs.lookup k' := by
  induction fs with
  | nil => rfl
  | cons p rest ih =>
      obtain ⟨pk, pv⟩ := p
      have hcons : modifyKey ((pk, pv) :: rest) k f
          = (if pk = k then (pk, f pv) else (pk, pv)) :: modifyKey rest k f := rfl
      rw [hcons]
      by_cases hp : pk = k
      · rw [if_pos hp]
        have hb : (k' == pk) = false := beq_eq_false_iff_ne.mpr (fun hc => h (hc.trans hp))
        simp [List.lookup, hb, ih]
      · rw [if_neg hp]
        by_cases hk : k' = pk
        · simp [List.lookup, hk]
        · have hb : (k' == pk) = false := beq_eq_false_iff_ne.mpr hk
          simp [List.lookup, hb, ih]

/-- Lemma: `modifyKey` rewrites the first binding of `k` exactly when one
exists. -/
theorem lookup_modifyKey_self (fs : List (String × Json)) (k : String)
    (f : Json → Json) (w : Json) (h : fs.lookup k = some w) :
    (modifyKey fs k f).lookup k = some (f w) := by
  induction fs with
  | nil => simp [List.lookup] at h
  | cons p rest ih =>
      obtain ⟨pk, pv⟩ := p
      have hcons : modifyKey ((pk, pv) :: rest) k f
          = (if pk = k then (pk, f pv) else (pk, pv)) :: modifyKey rest k f := rfl
      rw [hcons]
      by_cases hp : pk = k
      · subst hp
        rw [if_pos rfl]
        simp [List.lookup] at h
        simp [List.lookup, h]
      · rw [if_neg hp]
        have hb : (k == pk) = false := beq_eq_false_iff_ne.mpr (fun hc => hp hc.symm)
        simp [List.lookup, hb] at h ⊢
        exact ih h

/-- C5 (amended): for a backend text frame parsing to
`\x7b error: \x7b message: <nonempty string>, ... \x7d, ... \x7d`, the forwarded
frame is the re-serialization of the parsed value in which exactly
`error.message` was replaced by its translation: the new `error.message`
is `transformErrorMessage` of the original, every other `error` field and
every other top-level field keep their values. -/
theorem relay_rewrites_only_error_message
    (parse : String → Option Json) (host data m : String)
    (fs efs : List (String × Json))
    (hp : parse data = some (.obj fs))
    (he : fs.lookup "error" = some (.obj efs))
    (hm : efs.lookup "message" = some (.str m))
    (hne : m ≠ "") :
    containerToClient parse data host
      = serializeJson (setErrorMessage (.obj fs) (.str (transformErrorMessage m host)))
    ∧ errorField (setErrorMessage (.obj fs) (.str (transformErrorMessage m host))) "message"
        = some (.str (transformErrorMessage m host))
    ∧ (∀ k, k ≠ "message" →
        errorField (setErrorMessage (.obj fs) (.str (transformErrorMessage m host))) k
          = errorField (.obj fs) k)
    ∧ (∀ k, k ≠ "error" →
        topField (setErrorMessage (.obj fs) (.str (transformErrorMessage m host))) k
          = topField (.obj fs) k) := by
  have hmsg : errorMessageOf (.obj fs) = some (.str m) := by
    simp [errorMessageOf, he, hm]
  have htop : topField (setErrorMessage (.obj fs) (.str (transformErrorMessage m host))) "error"
      = some (.obj (modifyKey efs "message" (fun _ => .str (transformErrorMessage m host)))) := by
    simp only [setErrorMessage, topField]
    exact lookup_modifyKey_self fs "error" _ (.obj efs) he
  refine ⟨?_, ?_, ?_, ?_⟩
  · unfold containerToClient
    rw [hp]
    simp [hmsg, jsTruthy, hne, transformErrorValue]
  · rw [errorField, htop]
    exact lookup_modifyKey_self efs "message" _ (.str m) hm
  · intro k hk
    rw [errorField, htop, errorField, topField, he]
    exact lookup_modifyKey_ne efs "message" k _ hk
  · intro k hk
    simp only [setErrorMessage, topField]
    exact lookup_modifyKey_ne fs "error" k _ hk

/-- Closed instance: a frame carrying a nonempty "pairing required"
error message together with sibling and top-level fields is forwarded as
the re-serialization with only `error.message` rewritten. -/
theorem relay_rewrites_only_error_message_witness :
    containerToClient
        (fun _ => some (Json.obj
          [("error", Json.obj [("message", Json.str "pairing required"), ("code", Json.num 3)]),
           ("id", Json.num 7)]))
        "d" "example.com"
      = serializeJson (setErrorMessage
          (Json.obj
            [("error", Json.obj [("message", Json.str "pairing required"), ("code", Json.num 3)]),
             ("id", Json.num 7)])
          (Json.str (transformErrorMessage "pairing required" "example.com"))) :=
  (relay_rewrites_only_error_message
    (fun _ => some (Json.obj
      [("error", Json.obj [("message", Json.str "pairing required"), ("code", Json.num 3)]),
       ("id", Json.num 7)]))
    "example.com" "d" "pairing required"
    [("error", Json.obj [("message", Json.str "pairing required"), ("code", Json.num 3)]),
     ("id", Json.num 7)]
    [("message", Json.str "pairing required"), ("code", Json.num 3)]
    rfl rfl rfl (by decide)).1

/-- C5 counterexample: a frame whose `error.message` is the empty string
(a string, but falsy) is forwarded exactly as received, which differs
from the re-serialization the claim requires whenever the original text
carries non-minimal whitespace. -/
theorem relay_reserialization_fails_on_empty_message :
    containerToClient
        (fun _ => some (Json.obj [("error", Json.obj [("message", Json.str "")])]))
        "\x7b\"error\": \x7b\"message\": \"\"\x7d\x7d" "h"
      = "\x7b\"error\": \x7b\"message\": \"\"\x7d\x7d"
    ∧ containerToClient
        (fun _ => some (Json.obj [("error", Json.obj [("message", Json.str "")])]))
        "\x7b\"error\": \x7b\"message\": \"\"\x7d\x7d" "h"
      ≠ serializeJson (setErrorMessage
          (Json.obj [("error", Json.obj [("message", Json.str "")])])
          (Json.str (transformErrorMessage "" "h"))) :=
  ⟨by decide, by decide⟩
